import Mathlib

/-!
# foomodbot: the configuration loader, the bot controller and the mute handler

A shallow embedding of `main.go`.  The Discord client library, the process
environment and the wall clock are external collaborators of the program; each
is represented by an explicit argument:

* the process environment is a lookup function (`Env`);
* the Discord client together with the platform behind it is a record of
  state-passing operations (`Session σ`), over an arbitrary platform state `σ`,
  so that every result of every call may depend on everything that happened
  before;
* clock readings are arguments of type `Time`.

Every operation performed on a collaborator is appended to an ordered trace of
`Effect`s, and every goroutine started is appended to the list `spawned`.
Log output (`slog`, `log`) is not part of the model.
-/

namespace Foomodbot

/-! ## Library types -/

/-- Go `error` values, represented by their message. -/
abbrev Error := String

/-- Go `time.Duration`: a number of nanoseconds. -/
abbrev Duration := Int

/-- Go `time.Second`. -/
def Second : Duration := 1000000000

/-- Go `time.Time`: an instant, as nanoseconds since the Unix epoch.  Go
represents the instants within some 292 billion years of the year 1; the
model does not bound them. -/
structure Time where
  ns : Int
  deriving DecidableEq, Repr

/-- Go `Time.Add`. -/
def Time.Add (t : Time) (d : Duration) : Time := ⟨t.ns + d⟩

/-- Go `Time.Sub`: the difference, or the largest or smallest duration (a
64-bit signed number of nanoseconds) when the difference is out of range. -/
def Time.Sub (t u : Time) : Duration :=
  if t.ns - u.ns > 9223372036854775807 then 9223372036854775807
  else if t.ns - u.ns < -9223372036854775808 then -9223372036854775808
  else t.ns - u.ns

/-- Go `Time.Unix`: whole seconds since the Unix epoch, rounded towards minus
infinity (`/` on `Int` with a positive divisor is the floor). -/
def Time.Unix (t : Time) : Int := t.ns / 1000000000

/-- The process environment as `os.LookupEnv` sees it. -/
abbrev Env := String → Option String

/-- Go `os.LookupEnv`: the value and whether the key is set; the value is the
empty string when the key is not set. -/
def LookupEnv (env : Env) (key : String) : String × Bool :=
  match env key with
  | some v => (v, true)
  | none => ("", false)

/-- The fields of `discordgo.Interaction` that identify an interaction: its id,
the guild and channel it was sent from, the id of the invoking user and the
response token. -/
structure Interaction where
  ID : String
  GuildID : String
  ChannelID : String
  InvokerID : String
  Token : String
  deriving DecidableEq, Repr

/-- The event `discordgo.InteractionCreate`, which embeds the interaction. -/
structure InteractionCreate where
  Interaction : Interaction
  deriving DecidableEq, Repr

/-- The promoted field `i.GuildID` of the embedded interaction. -/
def InteractionCreate.GuildID (i : InteractionCreate) : String := i.Interaction.GuildID

/-- The field of `discordgo.Member` that the program reads. -/
structure Member where
  Roles : List String
  deriving DecidableEq, Repr

/-- An option of `discordgo.ApplicationCommand` (a command parameter). -/
structure ApplicationCommandOption where
  Name : String
  Description : String
  deriving DecidableEq, Repr

/-- The type `discordgo.ApplicationCommand`; fields left out of a Go composite
literal have their zero value. -/
structure ApplicationCommand where
  Name : String := ""
  Description : String := ""
  Options : List ApplicationCommandOption := []
  deriving DecidableEq, Repr

/-- The response types of `discordgo.InteractionResponse` (the program uses
one). -/
inductive InteractionResponseType where
  | InteractionResponseChannelMessageWithSource
  deriving DecidableEq, Repr

/-- The types `discordgo.InteractionResponse` with its
`InteractionResponseData`; `Kind` is the Go field `Type`. -/
structure InteractionResponse where
  Kind : InteractionResponseType
  Content : String
  deriving DecidableEq, Repr

/-- The type `discordgo.WebhookEdit`. -/
structure WebhookEdit where
  Content : String
  deriving DecidableEq, Repr

/-- The two event types for which `Run` registers a handler. -/
inductive HandlerKind where
  | Ready
  | InteractionCreate
  deriving DecidableEq, Repr

/-- What the program does to its collaborators, in the order it does it.  All
constructors but `Sleep` and `AwaitInterrupt` are calls to the Discord
client. -/
inductive Effect where
  | New (token : String)
  | AddHandler (kind : HandlerKind)
  | Open
  | Close
  | ApplicationCommandBulkOverwrite (appID guildID : String)
      (commands : List ApplicationCommand)
  | GuildMember (guildID userID : String)
  | GuildMemberRoleAdd (guildID userID roleID : String)
  | GuildMemberMute (guildID userID : String) (mute : Bool)
  | GuildMemberRoleRemove (guildID userID roleID : String)
  | InteractionRespond (interaction : Interaction) (resp : InteractionResponse)
  | InteractionResponseEdit (interaction : Interaction) (edit : WebhookEdit)
  | Sleep (d : Duration)
  | AwaitInterrupt
  deriving DecidableEq, Repr

/-- The Discord client and the platform behind it: each call reads the
platform state and yields its result and the next platform state. -/
structure Session (σ : Type) where
  New : String → σ → Option Error × σ
  Open : σ → Option Error × σ
  Close : σ → Option Error × σ
  ApplicationCommandBulkOverwrite :
    String → String → List ApplicationCommand → σ → Option Error × σ
  GuildMember : String → String → σ → Except Error Member × σ
  GuildMemberRoleAdd : String → String → String → σ → Option Error × σ
  GuildMemberMute : String → String → Bool → σ → Option Error × σ
  GuildMemberRoleRemove : String → String → String → σ → Option Error × σ
  InteractionRespond : Interaction → InteractionResponse → σ → Option Error × σ
  InteractionResponseEdit : Interaction → WebhookEdit → σ → Option Error × σ

/-! ## Configuration -/

/-- The type `Config`. -/
structure Config where
  BotToken : String := ""
  ApplicationId : String := ""
  GuildId : String := ""
  TargetUserId : String := ""
  MuteRoleId : String := ""
  deriving DecidableEq, Repr

/-- The function `newConfig`: the configuration read so far and the error. -/
def newConfig (env : Env) : Config × Option Error :=
  let config : Config := {}
  let (v, found) := LookupEnv env "BOT_TOKEN"
  let config := { config with BotToken := v }
  if !found then (config, some "BOT_TOKEN not found") else
  let (v, found) := LookupEnv env "APPLICATION_ID"
  let config := { config with ApplicationId := v }
  if !found then (config, some "APPLICATION_ID not found") else
  let (v, found) := LookupEnv env "GUILD_ID"
  let config := { config with GuildId := v }
  let config := if !found then { config with GuildId := "" } else config
  let (v, found) := LookupEnv env "TARGET_USER_ID"
  let config := { config with TargetUserId := v }
  if !found then (config, some "TARGET_USER_ID not found") else
  let (v, found) := LookupEnv env "MUTE_ROLE"
  let config := { config with MuteRoleId := v }
  if !found then (config, some "MUTE_ROLE not found") else
  (config, none)

/-! ## The bot -/

/-- The type `Bot`. -/
structure Bot where
  config : Config
  deriving DecidableEq, Repr

/-- The function `NewBot`. -/
def NewBot (config : Config) : Bot := { config := config }

/-- The goroutine started by `handle`, as the variables its closure captures:
the interaction event, `userId`, `mute` and `end`. -/
structure UnmuteTask where
  i : InteractionCreate
  userId : String
  mute : String
  finish : Time
  deriving DecidableEq, Repr

/-- The state of a run: the platform, the effects performed so far (oldest
first) and the goroutines started so far. -/
structure World (σ : Type) where
  platform : σ
  trace : List Effect
  spawned : List UnmuteTask

/-- A run that has not done anything yet. -/
def World.init {σ : Type} (st : σ) : World σ := ⟨st, [], []⟩

/-- Perform one operation on the platform and record it. -/
def World.call {σ α : Type} (w : World σ) (e : Effect) (op : σ → α × σ) : α × World σ :=
  let r := op w.platform
  (r.1, { w with platform := r.2, trace := w.trace ++ [e] })

/-- Record an effect that does not touch the platform. -/
def World.emit {σ : Type} (w : World σ) (e : Effect) : World σ :=
  { w with trace := w.trace ++ [e] }

/-- Start a goroutine (the `go` statement). -/
def World.go {σ : Type} (w : World σ) (t : UnmuteTask) : World σ :=
  { w with spawned := w.spawned ++ [t] }

/-- The method `Bot.handle`, up to and including the `go` statement.  `now` is
the reading of `time.Now()` in the handler. -/
def Bot.handle {σ : Type} (bot : Bot) (s : Session σ) (now : Time)
    (i : InteractionCreate) (w : World σ) : Option Error × World σ :=
  let userId := bot.config.ApplicationId
  match w.call (.GuildMember i.GuildID userId) (s.GuildMember i.GuildID userId) with
  | (.error err, w) => (some err, w)
  | (.ok member, w) =>
    let mute := bot.config.MuteRoleId
    if !member.Roles.contains mute then
      match w.call (.GuildMemberRoleAdd i.GuildID userId mute)
          (s.GuildMemberRoleAdd i.GuildID userId mute) with
      | (some err, w) => (some err, w)
      | (none, w) =>
        let finish := now.Add (15 * Second)
        let (_, w) := w.call (.GuildMemberMute i.GuildID userId true)
          (s.GuildMemberMute i.GuildID userId true)
        let resp : InteractionResponse :=
          { Kind := .InteractionResponseChannelMessageWithSource,
            Content := "<t:" ++ toString finish.Unix ++ ":R>" }
        let (_, w) := w.call (.InteractionRespond i.Interaction resp)
          (s.InteractionRespond i.Interaction resp)
        (none, w.go ⟨i, userId, mute, finish⟩)
    else
      let resp : InteractionResponse :=
        { Kind := .InteractionResponseChannelMessageWithSource,
          Content := "Already muted" }
      let (_, w) := w.call (.InteractionRespond i.Interaction resp)
        (s.InteractionRespond i.Interaction resp)
      (none, w)

/-- The body of the goroutine started by `handle`.  `now` is the reading of
`time.Now()` in the goroutine. -/
def UnmuteTask.run {σ : Type} (t : UnmuteTask) (s : Session σ) (now : Time)
    (w : World σ) : World σ :=
  let w := w.emit (.Sleep (t.finish.Sub now))
  let (_, w) := w.call (.GuildMemberMute t.i.GuildID t.userId false)
    (s.GuildMemberMute t.i.GuildID t.userId false)
  match w.call (.GuildMemberRoleRemove t.i.GuildID t.userId t.mute)
      (s.GuildMemberRoleRemove t.i.GuildID t.userId t.mute) with
  | (some _, w) => w
  | (none, w) =>
    let content := "Mute is finished"
    let (_, w) := w.call (.InteractionResponseEdit t.i.Interaction ⟨content⟩)
      (s.InteractionResponseEdit t.i.Interaction ⟨content⟩)
    w

/-- The method `Bot.Run`, with the interrupt arriving while it waits.  The
deferred `discord.Close()` runs on every return after the client was
constructed.  The handlers it registers are run by the client library; the
interaction handler is `Bot.handle`. -/
def Bot.Run {σ : Type} (bot : Bot) (s : Session σ) (w : World σ) : Option Error × World σ :=
  match w.call (.New ("Bot " ++ bot.config.BotToken)) (s.New ("Bot " ++ bot.config.BotToken)) with
  | (some err, w) => (some err, w)
  | (none, w) =>
    let close (r : Option Error × World σ) : Option Error × World σ :=
      (r.1, (r.2.call .Close s.Close).2)
    close <|
      let w := w.emit (.AddHandler .Ready)
      match w.call .Open s.Open with
      | (some err, w) => (some err, w)
      | (none, w) =>
        let registeredCommands : List ApplicationCommand :=
          [{ Name := "mute", Description := "Mute smallcap" }]
        match w.call
            (.ApplicationCommandBulkOverwrite bot.config.ApplicationId bot.config.GuildId
              registeredCommands)
            (s.ApplicationCommandBulkOverwrite bot.config.ApplicationId bot.config.GuildId
              registeredCommands) with
        | (some err, w) => (some err, w)
        | (none, w) =>
          let w := w.emit (.AddHandler .InteractionCreate)
          let w := w.emit .AwaitInterrupt
          (none, w)

/-- How the process ends. -/
inductive Outcome where
  | returned
  | exit (code : Int)
  | panic (err : Error)
  deriving DecidableEq, Repr

/-- The function `main`.  `load` is `godotenv.Load`: it may add variables to
the process environment and may fail, which is only logged. -/
def main {σ : Type} (load : Env → Option Error × Env) (s : Session σ) (env : Env)
    (st : σ) : Outcome × World σ :=
  let env := (load env).2
  match newConfig env with
  | (_, some _) => (.exit 1, World.init st)
  | (config, none) =>
    let bot := NewBot config
    match bot.Run s (World.init st) with
    | (some err, w) => (.panic err, w)
    | (none, w) => (.returned, w)

/-- The user id an effect is about, for the calls that are about a member. -/
def Effect.userID : Effect → Option String
  | .GuildMember _ u => some u
  | .GuildMemberRoleAdd _ u _ => some u
  | .GuildMemberMute _ u _ => some u
  | .GuildMemberRoleRemove _ u _ => some u
  | _ => none

/-! ## A sequential model of the platform -/

/-- The platform state of the sequential model: the roles and the voice-mute
flag of every member of every guild, the registered commands and the messages
sent in response to interactions. -/
structure Guilds where
  roles : String → String → List String
  voiceMuted : String → String → Bool
  commands : List ApplicationCommand
  messages : List (Interaction × String)

/-- The platform in which every call succeeds: a role added to a member is in
the role list returned by later fetches of that member, until it is removed. -/
def memSession : Session Guilds where
  New := fun _ st => (none, st)
  Open := fun st => (none, st)
  Close := fun st => (none, st)
  ApplicationCommandBulkOverwrite := fun _ _ cmds st => (none, { st with commands := cmds })
  GuildMember := fun g u st => (.ok ⟨st.roles g u⟩, st)
  GuildMemberRoleAdd := fun g u r st =>
    let roles := fun g1 u1 =>
      if g1 = g ∧ u1 = u then
        (if (st.roles g u).contains r then st.roles g u else st.roles g u ++ [r])
      else st.roles g1 u1
    (none, { st with roles := roles })
  GuildMemberMute := fun g u b st =>
    let voiceMuted := fun g1 u1 => if g1 = g ∧ u1 = u then b else st.voiceMuted g1 u1
    (none, { st with voiceMuted := voiceMuted })
  GuildMemberRoleRemove := fun g u r st =>
    let roles := fun g1 u1 =>
      if g1 = g ∧ u1 = u then (st.roles g u).filter (fun x => x != r)
      else st.roles g1 u1
    (none, { st with roles := roles })
  InteractionRespond := fun i resp st =>
    (none, { st with messages := st.messages ++ [(i, resp.Content)] })
  InteractionResponseEdit := fun i edit st =>
    let messages := st.messages.map (fun m => if m.1 = i then (i, edit.Content) else m)
    (none, { st with messages := messages })

/-- Which calls the platform refuses. -/
structure Faults where
  fetch : Bool := false
  addRole : Bool := false
  removeRole : Bool := false
  connect : Bool := false

/-- The sequential model with some calls refused by the platform. -/
def faultySession (f : Faults) : Session Guilds :=
  { memSession with
    Open := fun st => if f.connect then (some "websocket: bad handshake", st) else (none, st),
    GuildMember := fun g u st =>
      if f.fetch then (.error "Unknown Member", st) else memSession.GuildMember g u st,
    GuildMemberRoleAdd := fun g u r st =>
      if f.addRole then (some "Missing Permissions", st)
      else memSession.GuildMemberRoleAdd g u r st,
    GuildMemberRoleRemove := fun g u r st =>
      if f.removeRole then (some "Missing Permissions", st)
      else memSession.GuildMemberRoleRemove g u r st }

/-! ## Sample inputs -/

/-- An environment with all five keys set. -/
def fullEnv : Env := fun k =>
  if k = "BOT_TOKEN" then some "tok"
  else if k = "APPLICATION_ID" then some "app"
  else if k = "GUILD_ID" then some "guild"
  else if k = "TARGET_USER_ID" then some "target"
  else if k = "MUTE_ROLE" then some "muted"
  else none

/-- An environment without `GUILD_ID` and with an empty `MUTE_ROLE`. -/
def noGuildEnv : Env := fun k =>
  if k = "BOT_TOKEN" then some "tok"
  else if k = "APPLICATION_ID" then some "app"
  else if k = "TARGET_USER_ID" then some "target"
  else if k = "MUTE_ROLE" then some ""
  else none

/-- An environment without `TARGET_USER_ID`. -/
def noTargetEnv : Env := fun k =>
  if k = "BOT_TOKEN" then some "tok"
  else if k = "APPLICATION_ID" then some "app"
  else if k = "GUILD_ID" then some "guild"
  else if k = "MUTE_ROLE" then some "muted"
  else none

/-- The configuration read from `fullEnv`. -/
def sampleConfig : Config :=
  { BotToken := "tok", ApplicationId := "app", GuildId := "guild",
    TargetUserId := "target", MuteRoleId := "muted" }

/-- A bot with the sample configuration. -/
def sampleBot : Bot := NewBot sampleConfig

/-- An interaction sent from guild `guild` by user `alice`. -/
def sampleInteraction : InteractionCreate :=
  ⟨{ ID := "1", GuildID := "guild", ChannelID := "chan", InvokerID := "alice", Token := "t1" }⟩

/-- A second interaction sent from the same guild by user `bob`. -/
def secondInteraction : InteractionCreate :=
  ⟨{ ID := "2", GuildID := "guild", ChannelID := "chan", InvokerID := "bob", Token := "t2" }⟩

/-- A platform state in which no member holds a role. -/
def noRoles : Guilds :=
  { roles := fun _ _ => [], voiceMuted := fun _ _ => false, commands := [], messages := [] }

/-- A platform state in which member `app` of guild `guild` holds the role
`muted` and no other member holds a role. -/
def appMuted : Guilds :=
  { noRoles with roles := fun g u => if g = "guild" ∧ u = "app" then ["muted"] else [] }

/-! ## The specification side of the configuration loader -/

/-- The required keys, in the order in which the specification lists them. -/
def requiredKeys : List String :=
  ["BOT_TOKEN", "APPLICATION_ID", "TARGET_USER_ID", "MUTE_ROLE"]

/-- The first required key that the environment does not set. -/
def firstAbsent (env : Env) : Option String :=
  requiredKeys.find? (fun k => (env k).isNone)

end Foomodbot

namespace Foomodbot

/-! ## The configuration loader -/

/-- The error of `newConfig` names the first required key that is not set, and
there is no error when all four are set. -/
theorem newConfig_err (env : Env) :
    (newConfig env).2 = (firstAbsent env).map (fun k => k ++ " not found") := by
  unfold newConfig firstAbsent requiredKeys LookupEnv
  cases h1 : env "BOT_TOKEN" <;> cases h2 : env "APPLICATION_ID" <;>
    cases h3 : env "TARGET_USER_ID" <;> cases h4 : env "MUTE_ROLE" <;>
    cases h5 : env "GUILD_ID" <;>
    simp [List.find?, h1, h2, h3, h4]

/-- The first absent key is a required key that the environment does not set. -/
theorem firstAbsent_some {env : Env} {k : String} (h : firstAbsent env = some k) :
    k ∈ requiredKeys ∧ env k = none := by
  unfold firstAbsent at h
  have h1 := List.mem_of_find?_eq_some h
  have h2 := List.find?_some h
  exact ⟨h1, by simpa using h2⟩

/-- No required key is absent exactly when every required key is set. -/
theorem firstAbsent_eq_none (env : Env) :
    firstAbsent env = none ↔ ∀ k ∈ requiredKeys, env k ≠ none := by
  unfold firstAbsent
  rw [List.find?_eq_none]
  simp

/-- There is an error exactly when a required key is not set. -/
theorem newConfig_isSome_iff (env : Env) :
    (newConfig env).2.isSome ↔ ∃ k ∈ requiredKeys, env k = none := by
  rw [newConfig_err]
  cases h : firstAbsent env with
  | none =>
    have h2 := (firstAbsent_eq_none env).1 h
    simp only [Option.map_none', Option.isSome_none, Bool.false_eq_true, false_iff]
    rintro ⟨k, hk, hnone⟩
    exact h2 k hk hnone
  | some k =>
    have h2 := firstAbsent_some h
    simp only [Option.map_some', Option.isSome_some, true_iff]
    exact ⟨k, h2.1, h2.2⟩

/-- C2: `newConfig` returns an error exactly when one of the four required keys
`BOT_TOKEN`, `APPLICATION_ID`, `TARGET_USER_ID`, `MUTE_ROLE` is not set, whatever
`GUILD_ID` is; the error is the name of the first required key that is not
set, followed by ` not found`, so the message contains the name of an absent
key. -/
theorem newConfig_error_iff_required_key_absent (env : Env) :
    ((newConfig env).2.isSome ↔ ∃ k ∈ requiredKeys, env k = none) ∧
    (newConfig env).2 = (firstAbsent env).map (fun k => k ++ " not found") ∧
    (∀ msg, (newConfig env).2 = some msg →
      ∃ k, firstAbsent env = some k ∧ k ∈ requiredKeys ∧ env k = none ∧
        msg = k ++ " not found" ∧ k.data <:+: msg.data) := by
  refine ⟨newConfig_isSome_iff env, newConfig_err env, ?_⟩
  · intro msg hmsg
    rw [newConfig_err] at hmsg
    cases h : firstAbsent env with
    | none => rw [h] at hmsg; simp at hmsg
    | some k =>
      rw [h] at hmsg
      simp only [Option.map_some', Option.some.injEq] at hmsg
      have h2 := firstAbsent_some h
      refine ⟨k, rfl, h2.1, h2.2, hmsg.symm, ?_⟩
      rw [← hmsg, String.data_append]
      exact ⟨[], " not found".data, by simp⟩

/-- C2 at an environment without `TARGET_USER_ID`: the error names that key. -/
theorem newConfig_error_iff_required_key_absent_witness :
    (newConfig noTargetEnv).2 = some "TARGET_USER_ID not found" :=
  (newConfig_error_iff_required_key_absent noTargetEnv).2.1.trans (by decide)

/-- C3: when the four required keys are set, to any strings, `newConfig`
returns no error and the configuration whose fields are the values of the
keys; `GuildId` is the value of `GUILD_ID` when it is set and the empty string
when it is not. -/
theorem newConfig_all_required_present (env : Env) (tok app target role : String)
    (h1 : env "BOT_TOKEN" = some tok) (h2 : env "APPLICATION_ID" = some app)
    (h3 : env "TARGET_USER_ID" = some target) (h4 : env "MUTE_ROLE" = some role) :
    newConfig env =
      ({ BotToken := tok, ApplicationId := app, GuildId := (env "GUILD_ID").getD "",
         TargetUserId := target, MuteRoleId := role }, none) := by
  unfold newConfig LookupEnv
  cases h5 : env "GUILD_ID" <;> simp [h1, h2, h3, h4]

/-- C3 at an environment without `GUILD_ID` and with an empty `MUTE_ROLE`. -/
theorem newConfig_all_required_present_witness :
    newConfig noGuildEnv =
      ({ BotToken := "tok", ApplicationId := "app", GuildId := "",
         TargetUserId := "target", MuteRoleId := "" }, none) :=
  newConfig_all_required_present noGuildEnv "tok" "app" "target" ""
    (by decide) (by decide) (by decide) (by decide)

/-! ## The bot controller -/

/-- C9: when a required key is not set in the environment that `newConfig`
reads (the process environment after `godotenv.Load`), `main` exits with status
1 and has performed no effect at all: no client was constructed, no connection
opened, no command registered, no goroutine started, and the platform state is
untouched. -/
theorem main_exits_when_required_key_absent {σ : Type}
    (load : Env → Option Error × Env) (s : Session σ) (env : Env) (st : σ)
    (k : String) (hk : k ∈ requiredKeys) (habs : (load env).2 k = none) :
    (main load s env st).1 = Outcome.exit 1 ∧
    (main load s env st).2.trace = [] ∧
    (main load s env st).2.spawned = [] ∧
    (main load s env st).2.platform = st := by
  have herr : (newConfig (load env).2).2.isSome :=
    (newConfig_isSome_iff (load env).2).2 ⟨k, hk, habs⟩
  unfold main
  rcases hc : newConfig (load env).2 with ⟨cfg, err⟩
  rw [hc] at herr
  cases err with
  | none => simp at herr
  | some e => simp [World.init, hc]

/-- C9 at an environment without `TARGET_USER_ID`, with no variables added by
`godotenv.Load`. -/
theorem main_exits_when_required_key_absent_witness :
    (main (fun e => (some "open .env: no such file or directory", e)) memSession
        noTargetEnv noRoles).1 = Outcome.exit 1 ∧
    (main (fun e => (some "open .env: no such file or directory", e)) memSession
        noTargetEnv noRoles).2.trace = [] :=
  have h := main_exits_when_required_key_absent
    (fun e => (some "open .env: no such file or directory", e)) memSession
    noTargetEnv noRoles "TARGET_USER_ID" (by decide) (by decide)
  ⟨h.1, h.2.1⟩

/-- C8: when the client is constructed and the connection opens, `Run` issues
the bulk overwrite, once, as its fourth call, with the configured application
id, the configured guild id (empty for the global scope) and the one-element
command list holding the command `mute` with description `Mute smallcap` and no
options; what follows is the interaction handler registration and the wait for
the interrupt when the overwrite succeeds, and the deferred close. -/
theorem Run_registers_the_mute_command {σ : Type} (bot : Bot) (s : Session σ) (w : World σ)
    (hnew : (s.New ("Bot " ++ bot.config.BotToken) w.platform).1 = none)
    (hopen : (s.Open (s.New ("Bot " ++ bot.config.BotToken) w.platform).2).1 = none) :
    (bot.Run s w).2.trace =
      w.trace ++
        [Effect.New ("Bot " ++ bot.config.BotToken), Effect.AddHandler HandlerKind.Ready,
         Effect.Open,
         Effect.ApplicationCommandBulkOverwrite bot.config.ApplicationId bot.config.GuildId
           [{ Name := "mute", Description := "Mute smallcap", Options := [] }]] ++
        (if (s.ApplicationCommandBulkOverwrite bot.config.ApplicationId bot.config.GuildId
              [{ Name := "mute", Description := "Mute smallcap", Options := [] }]
              (s.Open (s.New ("Bot " ++ bot.config.BotToken) w.platform).2).2).1 = none
         then [Effect.AddHandler HandlerKind.InteractionCreate, Effect.AwaitInterrupt]
         else []) ++
        [Effect.Close] := by
  simp only [Bot.Run, World.call, World.emit, hnew, hopen]
  cases h : (s.ApplicationCommandBulkOverwrite bot.config.ApplicationId bot.config.GuildId
      [{ Name := "mute", Description := "Mute smallcap", Options := [] }]
      (s.Open (s.New ("Bot " ++ bot.config.BotToken) w.platform).2).2).1 <;> simp

/-- C8 in the sequential model, for the sample configuration. -/
theorem Run_registers_the_mute_command_witness :
    (sampleBot.Run memSession (World.init noRoles)).2.trace =
      [Effect.New "Bot tok", Effect.AddHandler HandlerKind.Ready, Effect.Open,
       Effect.ApplicationCommandBulkOverwrite "app" "guild"
         [{ Name := "mute", Description := "Mute smallcap", Options := [] }],
       Effect.AddHandler HandlerKind.InteractionCreate, Effect.AwaitInterrupt,
       Effect.Close] :=
  Run_registers_the_mute_command sampleBot memSession (World.init noRoles) rfl rfl

/-! ## The interaction handler -/

/-- Adding a whole number of seconds to an instant adds it to its Unix time. -/
theorem Time.Unix_Add_seconds (t : Time) (n : Int) :
    (t.Add (n * Second)).Unix = t.Unix + n := by
  simp only [Time.Add, Time.Unix, Second]
  omega

/-- C4: when the member fetch succeeds and the fetched role list contains the
configured mute role, `handle` returns no error, its calls are the fetch and
one interaction response with content `Already muted` and nothing else (no role
add, no role removal, no voice-mute), and it starts no goroutine. -/
theorem handle_already_muted {σ : Type} (bot : Bot) (s : Session σ) (now : Time)
    (i : InteractionCreate) (w : World σ) (member : Member)
    (hfetch : (s.GuildMember i.GuildID bot.config.ApplicationId w.platform).1 = .ok member)
    (hrole : bot.config.MuteRoleId ∈ member.Roles) :
    (bot.handle s now i w).1 = none ∧
    (bot.handle s now i w).2.trace =
      w.trace ++
        [Effect.GuildMember i.GuildID bot.config.ApplicationId,
         Effect.InteractionRespond i.Interaction
           { Kind := .InteractionResponseChannelMessageWithSource,
             Content := "Already muted" }] ∧
    (bot.handle s now i w).2.spawned = w.spawned := by
  simp [Bot.handle, World.call, hfetch, hrole]

/-- C4 in the sequential model: member `app` already holds the role `muted`. -/
theorem handle_already_muted_witness :
    (sampleBot.handle memSession ⟨1700000000123456789⟩ sampleInteraction
        (World.init appMuted)).1 = none ∧
    (sampleBot.handle memSession ⟨1700000000123456789⟩ sampleInteraction
        (World.init appMuted)).2.trace =
      [Effect.GuildMember "guild" "app",
       Effect.InteractionRespond sampleInteraction.Interaction
         { Kind := .InteractionResponseChannelMessageWithSource,
           Content := "Already muted" }] ∧
    (sampleBot.handle memSession ⟨1700000000123456789⟩ sampleInteraction
        (World.init appMuted)).2.spawned = [] :=
  handle_already_muted sampleBot memSession ⟨1700000000123456789⟩ sampleInteraction
    (World.init appMuted) ⟨["muted"]⟩ (by rfl) (by decide)

/-- C5: when the member fetch succeeds, the fetched role list does not contain
the configured mute role and the role add succeeds, `handle` returns no error
and its calls are, in order: the fetch, the addition of the configured mute
role to the member, the voice-mute of the member set to true, and one
interaction response whose content is `<t:` followed by the decimal Unix seconds
of the clock reading plus 15 seconds followed by `:R>`; these Unix seconds are
those of the clock reading plus exactly 15. -/
theorem handle_mutes {σ : Type} (bot : Bot) (s : Session σ) (now : Time)
    (i : InteractionCreate) (w : World σ) (member : Member)
    (hfetch : (s.GuildMember i.GuildID bot.config.ApplicationId w.platform).1 = .ok member)
    (hrole : bot.config.MuteRoleId ∉ member.Roles)
    (hadd : (s.GuildMemberRoleAdd i.GuildID bot.config.ApplicationId bot.config.MuteRoleId
      (s.GuildMember i.GuildID bot.config.ApplicationId w.platform).2).1 = none) :
    (bot.handle s now i w).1 = none ∧
    (bot.handle s now i w).2.trace =
      w.trace ++
        [Effect.GuildMember i.GuildID bot.config.ApplicationId,
         Effect.GuildMemberRoleAdd i.GuildID bot.config.ApplicationId bot.config.MuteRoleId,
         Effect.GuildMemberMute i.GuildID bot.config.ApplicationId true,
         Effect.InteractionRespond i.Interaction
           { Kind := .InteractionResponseChannelMessageWithSource,
             Content := "<t:" ++ toString (now.Add (15 * Second)).Unix ++ ":R>" }] ∧
    (now.Add (15 * Second)).Unix = now.Unix + 15 := by
  refine ⟨?_, ?_, Time.Unix_Add_seconds now 15⟩ <;>
    simp [Bot.handle, World.call, World.go, hfetch, hrole, hadd]

/-- C5 in the sequential model: no member holds a role, and the clock reads
1700000000.123456789 seconds. -/
theorem handle_mutes_witness :
    (sampleBot.handle memSession ⟨1700000000123456789⟩ sampleInteraction
        (World.init noRoles)).2.trace =
      [Effect.GuildMember "guild" "app",
       Effect.GuildMemberRoleAdd "guild" "app" "muted",
       Effect.GuildMemberMute "guild" "app" true,
       Effect.InteractionRespond sampleInteraction.Interaction
         { Kind := .InteractionResponseChannelMessageWithSource,
           Content := "<t:1700000015:R>" }] :=
  (handle_mutes sampleBot memSession ⟨1700000000123456789⟩ sampleInteraction
    (World.init noRoles) ⟨[]⟩ (by rfl) (by decide) (by rfl)).2.1

/-- C6: after a successful mute `handle` has started exactly one goroutine.
Whenever and in whatever platform state it runs, that goroutine sleeps until 15
seconds after the clock reading of the handler, then sets the voice-mute of the
member to false, then requests the removal of the configured mute role; when
the removal succeeds it edits the response of the interaction once, with
content `Mute is finished`, and when the removal fails it does nothing more. It
starts no goroutine itself. -/
theorem handle_unmute_task {σ : Type} (bot : Bot) (s : Session σ) (now : Time)
    (i : InteractionCreate) (w : World σ) (member : Member)
    (hfetch : (s.GuildMember i.GuildID bot.config.ApplicationId w.platform).1 = .ok member)
    (hrole : bot.config.MuteRoleId ∉ member.Roles)
    (hadd : (s.GuildMemberRoleAdd i.GuildID bot.config.ApplicationId bot.config.MuteRoleId
      (s.GuildMember i.GuildID bot.config.ApplicationId w.platform).2).1 = none) :
    ∃ t : UnmuteTask, (bot.handle s now i w).2.spawned = w.spawned ++ [t] ∧
      ∀ (now2 : Time) (w2 : World σ),
        (t.run s now2 w2).trace =
          w2.trace ++
            [Effect.Sleep ((now.Add (15 * Second)).Sub now2),
             Effect.GuildMemberMute i.GuildID bot.config.ApplicationId false,
             Effect.GuildMemberRoleRemove i.GuildID bot.config.ApplicationId
               bot.config.MuteRoleId] ++
            (if (s.GuildMemberRoleRemove i.GuildID bot.config.ApplicationId
                  bot.config.MuteRoleId
                  (s.GuildMemberMute i.GuildID bot.config.ApplicationId false
                    w2.platform).2).1 = none
             then [Effect.InteractionResponseEdit i.Interaction ⟨"Mute is finished"⟩]
             else []) ∧
        (t.run s now2 w2).spawned = w2.spawned := by
  refine ⟨⟨i, bot.config.ApplicationId, bot.config.MuteRoleId, now.Add (15 * Second)⟩, ?_, ?_⟩
  · simp [Bot.handle, World.call, World.go, hfetch, hrole, hadd]
  · intro now2 w2
    simp only [UnmuteTask.run, World.call, World.emit]
    cases h : (s.GuildMemberRoleRemove i.GuildID bot.config.ApplicationId
        bot.config.MuteRoleId
        (s.GuildMemberMute i.GuildID bot.config.ApplicationId false w2.platform).2).1 <;>
      simp

/-- C6 in the sequential model with the role removal refused: the goroutine
started by the sample mute, run 15 seconds later, lifts the voice-mute,
requests the removal and stops. -/
theorem handle_unmute_task_witness :
    ∃ t : UnmuteTask,
      (sampleBot.handle (faultySession { removeRole := true }) ⟨1700000000123456789⟩
          sampleInteraction (World.init noRoles)).2.spawned = [t] ∧
      (t.run (faultySession { removeRole := true }) ⟨1700000015123456789⟩
          (World.init noRoles)).trace =
        [Effect.Sleep 0, Effect.GuildMemberMute "guild" "app" false,
         Effect.GuildMemberRoleRemove "guild" "app" "muted"] :=
  match handle_unmute_task sampleBot (faultySession { removeRole := true })
      ⟨1700000000123456789⟩ sampleInteraction (World.init noRoles) ⟨[]⟩
      (by rfl) (by decide) (by rfl) with
  | ⟨t, h1, h2⟩ => ⟨t, h1, (h2 ⟨1700000015123456789⟩ (World.init noRoles)).1⟩

/-- C7: `handle` returns an error exactly when the member fetch fails, or the
fetched role list does not contain the mute role and the role add fails,
whatever the voice-mute and the response calls return.  When it returns an
error it has started no goroutine and its calls are the fetch alone or the
fetch followed by the role add, so it sent no response and made no voice-mute
call.  After a failed fetch it returns the error of the fetch and the fetch is
its only call. -/
theorem handle_error_iff {σ : Type} (bot : Bot) (s : Session σ) (now : Time)
    (i : InteractionCreate) (w : World σ) :
    ((bot.handle s now i w).1.isSome ↔
      ((∃ err, (s.GuildMember i.GuildID bot.config.ApplicationId w.platform).1 = .error err) ∨
       (∃ member,
          (s.GuildMember i.GuildID bot.config.ApplicationId w.platform).1 = .ok member ∧
          bot.config.MuteRoleId ∉ member.Roles ∧
          (s.GuildMemberRoleAdd i.GuildID bot.config.ApplicationId bot.config.MuteRoleId
            (s.GuildMember i.GuildID bot.config.ApplicationId
              w.platform).2).1.isSome))) ∧
    ((bot.handle s now i w).1.isSome →
      (bot.handle s now i w).2.spawned = w.spawned ∧
      ((bot.handle s now i w).2.trace =
          w.trace ++ [Effect.GuildMember i.GuildID bot.config.ApplicationId] ∨
       (bot.handle s now i w).2.trace =
          w.trace ++
            [Effect.GuildMember i.GuildID bot.config.ApplicationId,
             Effect.GuildMemberRoleAdd i.GuildID bot.config.ApplicationId
               bot.config.MuteRoleId])) ∧
    (∀ err, (s.GuildMember i.GuildID bot.config.ApplicationId w.platform).1 = .error err →
      (bot.handle s now i w).1 = some err ∧
      (bot.handle s now i w).2.trace =
        w.trace ++ [Effect.GuildMember i.GuildID bot.config.ApplicationId] ∧
      (bot.handle s now i w).2.spawned = w.spawned) := by
  cases hf : (s.GuildMember i.GuildID bot.config.ApplicationId w.platform).1 with
  | error e => simp [Bot.handle, World.call, hf]
  | ok member =>
    by_cases hrole : bot.config.MuteRoleId ∈ member.Roles
    · simp [Bot.handle, World.call, hf, hrole]
    · cases ha : (s.GuildMemberRoleAdd i.GuildID bot.config.ApplicationId
          bot.config.MuteRoleId
          (s.GuildMember i.GuildID bot.config.ApplicationId w.platform).2).1 <;>
        simp [Bot.handle, World.call, World.go, hf, hrole, ha]

/-- C7 in the sequential model with the role add refused: `handle` returns the
error after the fetch and the role add, and starts no goroutine. -/
theorem handle_error_iff_witness :
    (sampleBot.handle (faultySession { addRole := true }) ⟨1700000000123456789⟩
        sampleInteraction (World.init noRoles)).1 = some "Missing Permissions" ∧
    (sampleBot.handle (faultySession { addRole := true }) ⟨1700000000123456789⟩
        sampleInteraction (World.init noRoles)).2.spawned = [] ∧
    (sampleBot.handle (faultySession { addRole := true }) ⟨1700000000123456789⟩
        sampleInteraction (World.init noRoles)).2.trace =
      [Effect.GuildMember "guild" "app", Effect.GuildMemberRoleAdd "guild" "app" "muted"] :=
  have h := (handle_error_iff sampleBot (faultySession { addRole := true })
    ⟨1700000000123456789⟩ sampleInteraction (World.init noRoles)).2.1 (by rfl)
  ⟨by rfl, h.1, by rfl⟩

/-- Every call about a member that `handle` makes, and every call about a
member that a goroutine started by it makes, is made with the configured
application id. -/
theorem handle_member_calls_use_ApplicationId {σ : Type} (bot : Bot) (s : Session σ)
    (now : Time) (i : InteractionCreate) (st : σ) :
    (∀ e ∈ (bot.handle s now i (World.init st)).2.trace, ∀ u, e.userID = some u →
      u = bot.config.ApplicationId) ∧
    (∀ t ∈ (bot.handle s now i (World.init st)).2.spawned, ∀ (now2 : Time) (st2 : σ),
      ∀ e ∈ (t.run s now2 (World.init st2)).trace, ∀ u, e.userID = some u →
        u = bot.config.ApplicationId) := by
  cases hf : (s.GuildMember i.GuildID bot.config.ApplicationId st).1 with
  | error e => simp [Bot.handle, World.call, World.init, hf, Effect.userID]
  | ok member =>
    by_cases hrole : bot.config.MuteRoleId ∈ member.Roles
    · simp [Bot.handle, World.call, World.init, hf, hrole, Effect.userID]
    · cases ha : (s.GuildMemberRoleAdd i.GuildID bot.config.ApplicationId
          bot.config.MuteRoleId
          (s.GuildMember i.GuildID bot.config.ApplicationId st).2).1
      · refine ⟨?_, ?_⟩
        · simp [Bot.handle, World.call, World.go, World.init, hf, hrole, ha, Effect.userID]
        · intro t ht now2 st2
          simp [Bot.handle, World.call, World.go, World.init, hf, hrole, ha] at ht
          subst ht
          simp only [UnmuteTask.run, World.call, World.emit, World.init]
          cases hr : (s.GuildMemberRoleRemove i.GuildID bot.config.ApplicationId
            bot.config.MuteRoleId
            (s.GuildMemberMute i.GuildID bot.config.ApplicationId false st2).2).1 <;>
            simp [Effect.userID]
      · simp [Bot.handle, World.call, World.init, hf, hrole, ha, Effect.userID]

/-- C1: with application id `app` and target user id `target`, the calls of
`handle` about a member (the fetch, the role add, the voice-mute) are made with
user id `app`, and so are those of the goroutine it starts (the voice-unmute
and the role removal); none is made with user id `target`. -/
theorem handle_addresses_ApplicationId_not_TargetUserId :
    sampleBot.config.ApplicationId = "app" ∧ sampleBot.config.TargetUserId = "target" ∧
    (sampleBot.handle memSession ⟨1700000000123456789⟩ sampleInteraction
        (World.init noRoles)).2.trace =
      [Effect.GuildMember "guild" "app",
       Effect.GuildMemberRoleAdd "guild" "app" "muted",
       Effect.GuildMemberMute "guild" "app" true,
       Effect.InteractionRespond sampleInteraction.Interaction
         { Kind := .InteractionResponseChannelMessageWithSource,
           Content := "<t:1700000015:R>" }] ∧
    (sampleBot.handle memSession ⟨1700000000123456789⟩ sampleInteraction
        (World.init noRoles)).2.spawned =
      [⟨sampleInteraction, "app", "muted", ⟨1700000015123456789⟩⟩] ∧
    (UnmuteTask.run ⟨sampleInteraction, "app", "muted", ⟨1700000015123456789⟩⟩ memSession
        ⟨1700000015123456789⟩ (World.init noRoles)).trace =
      [Effect.Sleep 0, Effect.GuildMemberMute "guild" "app" false,
       Effect.GuildMemberRoleRemove "guild" "app" "muted",
       Effect.InteractionResponseEdit sampleInteraction.Interaction ⟨"Mute is finished"⟩] := by
  refine ⟨rfl, rfl, ?_, ?_, ?_⟩ <;> rfl

/-! ## Two invocations in the sequential model -/

/-- In the sequential model, when the member with the configured application
id does not hold the mute role, two invocations from the same guild, the second
before the goroutine of the first runs, make one role add and one voice-mute
and start one goroutine in total, and the second responds `Already muted`. -/
theorem handle_twice_on_addressed_member (bot : Bot) (now1 now2 : Time)
    (i1 i2 : InteractionCreate) (st : Guilds) (hguild : i2.GuildID = i1.GuildID)
    (hrole : bot.config.MuteRoleId ∉ st.roles i1.GuildID bot.config.ApplicationId) :
    (bot.handle memSession now2 i2 (bot.handle memSession now1 i1 (World.init st)).2).1 = none ∧
    (bot.handle memSession now2 i2 (bot.handle memSession now1 i1 (World.init st)).2).2.trace =
      [Effect.GuildMember i1.GuildID bot.config.ApplicationId,
       Effect.GuildMemberRoleAdd i1.GuildID bot.config.ApplicationId bot.config.MuteRoleId,
       Effect.GuildMemberMute i1.GuildID bot.config.ApplicationId true,
       Effect.InteractionRespond i1.Interaction
         { Kind := .InteractionResponseChannelMessageWithSource,
           Content := "<t:" ++ toString (now1.Add (15 * Second)).Unix ++ ":R>" },
       Effect.GuildMember i1.GuildID bot.config.ApplicationId,
       Effect.InteractionRespond i2.Interaction
         { Kind := .InteractionResponseChannelMessageWithSource,
           Content := "Already muted" }] ∧
    (bot.handle memSession now2 i2
        (bot.handle memSession now1 i1 (World.init st)).2).2.spawned =
      [⟨i1, bot.config.ApplicationId, bot.config.MuteRoleId, now1.Add (15 * Second)⟩] := by
  simp [Bot.handle, World.call, World.go, World.init, memSession, hguild, hrole]

/-- The two-invocation property at the sample inputs. -/
theorem handle_twice_on_addressed_member_sample :
    (sampleBot.handle memSession ⟨1700000001000000000⟩ secondInteraction
        (sampleBot.handle memSession ⟨1700000000123456789⟩ sampleInteraction
          (World.init noRoles)).2).2.spawned =
      [⟨sampleInteraction, "app", "muted", ⟨1700000015123456789⟩⟩] :=
  (handle_twice_on_addressed_member sampleBot ⟨1700000000123456789⟩ ⟨1700000001000000000⟩
    sampleInteraction secondInteraction noRoles rfl (by decide)).2.2

/-- C10: in the sequential model, with application id `app` and target user id
`target`, from the state in which member `target` holds no role and member
`app` holds the mute role, two invocations of `handle` make no role add and no
voice-mute and start no goroutine: both fetch member `app` and respond
`Already muted`. -/
theorem handle_twice_target_without_role :
    sampleBot.config.TargetUserId = "target" ∧
    appMuted.roles "guild" "target" = [] ∧
    (sampleBot.handle memSession ⟨1700000001000000000⟩ secondInteraction
        (sampleBot.handle memSession ⟨1700000000123456789⟩ sampleInteraction
          (World.init appMuted)).2).2.trace =
      [Effect.GuildMember "guild" "app",
       Effect.InteractionRespond sampleInteraction.Interaction
         { Kind := .InteractionResponseChannelMessageWithSource,
           Content := "Already muted" },
       Effect.GuildMember "guild" "app",
       Effect.InteractionRespond secondInteraction.Interaction
         { Kind := .InteractionResponseChannelMessageWithSource,
           Content := "Already muted" }] ∧
    (sampleBot.handle memSession ⟨1700000001000000000⟩ secondInteraction
        (sampleBot.handle memSession ⟨1700000000123456789⟩ sampleInteraction
          (World.init appMuted)).2).2.spawned = [] := by
  refine ⟨rfl, ?_, ?_, ?_⟩ <;> rfl

end Foomodbot
